import Mathlib

/-!
Shallow embedding of the configuration-resolution and graph-construction
engine of the network-architecture visualizer, together with theorems
checking the specification claims against it.

The embedding mirrors, function by function:
  * the YAML variable interpolator (`resolveReference`, `evaluateExpression`,
    `evaluateInterpolation`, `processObject`);
  * the graph structure builder (`processNetworkStructure`, `parseInputSource`)
    of the network processor module;
  * the configuration reference resolver (`resolveConfigReferences`) and the
    subgraph fetcher (`getSubgraphConfig`) of the API layer;
  * the navigation controller of the NetworkVisualizer component
    (`processConfig` initial load, `handleNodeDoubleClick`, `handleGoBack`).

JavaScript dynamic values are modelled by the inductive `YVal`; `vUndefined`
models the JS value undefined and `vNaN` models the non-finite JS numbers
(NaN and infinities, which no claim distinguishes).  JS numbers are modelled
as exact rationals; IEEE-754 rounding is not modelled and no claim depends
on it.  Property access models own properties plus the `length` and index
properties of arrays and strings; prototype-inherited members are outside
the model and are not exercised by any claim.
-/

/-- A parsed YAML / JavaScript value. -/
inductive YVal where
  | vUndefined : YVal
  | vNull : YVal
  | vBool (b : Bool) : YVal
  | vNum (q : Rat) : YVal
  | vNaN : YVal
  | vStr (s : String) : YVal
  | vSeq (items : List YVal) : YVal
  | vMap (entries : List (String × YVal)) : YVal

/-- Errors thrown by the interpolator (the source throws Error objects whose
messages distinguish these cases). -/
inductive InterpErr where
  | refNotFound (reference : String)
  | nonNumeric
  | unsupportedOp (op : Char)
deriving DecidableEq

/-- First value bound to `key` in an association list (JS objects have unique
keys; first match). -/
def jsLookupEntries : List (String × YVal) → String → Option YVal
  | [], _ => none
  | (k, v) :: rest, key => if k == key then some v else jsLookupEntries rest key

/-- Accumulator loop splitting a character list at every separator. -/
def splitOnCharAux (sep : Char) : List Char → List Char → List (List Char)
  | [], acc => [acc.reverse]
  | c :: rest, acc =>
      if c == sep then acc.reverse :: splitOnCharAux sep rest []
      else splitOnCharAux sep rest (c :: acc)

/-- JS `String.prototype.split` with a one-character separator. -/
def jsSplit (s : String) (sep : Char) : List String :=
  (splitOnCharAux sep s.toList []).map List.asString

/-- Canonical array-index reading of a property key, as JS does for
`arr["2"]` (a non-canonical numeral such as "02" is not an index). -/
def natIndexOfKey (key : String) : Option Nat :=
  match key.toList with
  | [] => none
  | '0' :: [] => some 0
  | '0' :: _ => none
  | ds => if ds.all Char.isDigit then some (ds.foldl (fun acc c => acc * 10 + (c.toNat - 48)) 0) else none

/-- JS property access `value[key]`, restricted to own properties plus
`length` and indices of arrays and strings; absent properties give
undefined. -/
def jsIndex : YVal → String → YVal
  | .vMap es, key => (jsLookupEntries es key).getD .vUndefined
  | .vSeq xs, key =>
      if key == "length" then .vNum (xs.length : Rat)
      else
        match natIndexOfKey key with
        | some i => (xs.get? i).getD .vUndefined
        | none => .vUndefined
  | .vStr s, key =>
      if key == "length" then .vNum (s.length : Rat)
      else
        match natIndexOfKey key with
        | some i =>
            match s.toList.get? i with
            | some c => .vStr (String.mk [c])
            | none => .vUndefined
        | none => .vUndefined
  | _, _ => .vUndefined

/-- Loop body of `resolveReference`: before each access the source checks
`current === undefined || current === null` and throws; after the last
access there is no check, so a final missing key yields undefined. -/
def resolveParts (reference : String) : List String → YVal → Except InterpErr YVal
  | [], current => .ok current
  | part :: rest, current =>
      match current with
      | .vUndefined => .error (.refNotFound reference)
      | .vNull => .error (.refNotFound reference)
      | c => resolveParts reference rest (jsIndex c part)

/-- Resolves a variable reference in the format path.to.variable by walking
the full configuration object key by key (source `resolveReference`). -/
def resolveReference (reference : String) (config : YVal) : Except InterpErr YVal :=
  resolveParts reference (jsSplit reference '.') config

/-- Evaluates a simple expression value op operand (source
`evaluateExpression`).  A `none` number is a non-finite JS number; any
arithmetic on it gives NaN, and division by zero leaves the finite range.
The default switch branch throws the unsupported-operator error. -/
def evaluateExpression (value : Option Rat) (op : Char) (operand : Option Rat) :
    Except InterpErr YVal :=
  match value, operand with
  | some a, some b =>
      match op with
      | '*' => .ok (.vNum (a * b))
      | '/' => if b = 0 then .ok .vNaN else .ok (.vNum (a / b))
      | '+' => .ok (.vNum (a + b))
      | '-' => .ok (.vNum (a - b))
      | c => .error (.unsupportedOp c)
  | _, _ =>
      match op with
      | '*' => .ok .vNaN
      | '/' => .ok .vNaN
      | '+' => .ok .vNaN
      | '-' => .ok .vNaN
      | c => .error (.unsupportedOp c)

/-- Whether a string contains the two-character interpolation opener, as the
source tests with `includes`. -/
def hasInterpStart : List Char → Bool
  | [] => false
  | '$' :: '{' :: _ => true
  | _ :: rest => hasInterpStart rest

/-- Characters up to the first closing brace, or `none` when there is no
closing brace. -/
def splitAtCloseBrace : List Char → Option (List Char)
  | [] => none
  | '}' :: _ => some []
  | c :: rest => (splitAtCloseBrace rest).map (fun l => c :: l)

/-- First match of the interpolation pattern: the group captured between the
first dollar-brace opener that has a closing brace after it and that first
closing brace (the regex used by the source, which matches anywhere inside
the string). -/
def findInterp : List Char → Option String
  | [] => none
  | '$' :: '{' :: rest =>
      match splitAtCloseBrace rest with
      | some inner => some inner.asString
      | none => none
  | _ :: rest => findInterp rest

/-- Character class of the path group of the expression regex. -/
def isPathChar (c : Char) : Bool :=
  (('a' ≤ c && c ≤ 'z') || ('A' ≤ c && c ≤ 'Z') || ('0' ≤ c && c ≤ '9')
    || c == '_' || c == '.')

/-- The four binary operators accepted by the expression regex. -/
def isOpChar (c : Char) : Bool :=
  c == '*' || c == '+' || c == '-' || c == '/'

/-- Character class of the numeric-literal group of the expression regex. -/
def isNumChar (c : Char) : Bool :=
  ('0' ≤ c && c ≤ '9') || c == '.'

/-- Whitespace as matched by the regex escape for spaces. -/
def isJsSpace (c : Char) : Bool :=
  c == ' ' || c == '\t' || c == '\n' || c == '\r' || c == '\x0b' || c == '\x0c'

/-- JS `String.prototype.trim`: strip leading and trailing whitespace. -/
def jsTrim (s : String) : String :=
  ((((s.toList.dropWhile isJsSpace).reverse).dropWhile isJsSpace).reverse).asString

/-- The anchored expression regex of the source: one dotted path, optional
spaces, one operator character, optional spaces, one numeric literal, end of
string.  Returns the three captured groups. -/
def matchExpr (reference : List Char) : Option (String × Char × String) :=
  let path := reference.takeWhile isPathChar
  if path.isEmpty then none
  else
    match (reference.dropWhile isPathChar).dropWhile isJsSpace with
    | op :: rest =>
        if isOpChar op then
          let rest2 := rest.dropWhile isJsSpace
          let operand := rest2.takeWhile isNumChar
          if operand.isEmpty then none
          else if (rest2.dropWhile isNumChar).isEmpty then
            some (path.asString, op, operand.asString)
          else none
        else none
    | [] => none

/-- Numeric value of a digit list. -/
def digitsVal (ds : List Char) : Nat :=
  ds.foldl (fun acc c => acc * 10 + (c.toNat - 48)) 0

/-- JS parseFloat restricted to the inputs the operand regex admits (digits
and dots): longest valid decimal prefix, `none` for NaN. -/
def jsParseFloat (s : String) : Option Rat :=
  let cs := s.toList.dropWhile isJsSpace
  let intPart := cs.takeWhile Char.isDigit
  let rest := cs.dropWhile Char.isDigit
  match rest with
  | '.' :: rest2 =>
      let fracPart := rest2.takeWhile Char.isDigit
      if intPart.isEmpty && fracPart.isEmpty then none
      else some ((digitsVal intPart : Rat) + (digitsVal fracPart : Rat) / ((10 : Rat) ^ fracPart.length))
  | _ => if intPart.isEmpty then none else some (digitsVal intPart : Rat)

/-- The typeof test and arithmetic step applied to the resolved base value
of an expression-shaped interpolation: a non-number throws the hard failure,
a number (finite or not) goes through `evaluateExpression` with the parsed
operand. -/
def evalWithBase (op : Char) (operandStr : String) (baseValue : YVal) : Except InterpErr YVal :=
  match baseValue with
  | .vNum q => evaluateExpression (some q) op (jsParseFloat operandStr)
  | .vNaN => evaluateExpression none op (jsParseFloat operandStr)
  | _ => .error .nonNumeric

/-- Parses and evaluates one interpolation expression (source
`evaluateInterpolation`): extract the first braced group, try the anchored
path-operator-literal regex, otherwise resolve the whole trimmed group as a
dotted reference. -/
def evaluateInterpolation (expr : String) (config : YVal) : Except InterpErr YVal :=
  match findInterp expr.toList with
  | none => .ok (.vStr expr)
  | some inner =>
      let reference := jsTrim inner
      match matchExpr reference.toList with
      | some (refPath, op, operandStr) =>
          match resolveReference refPath config with
          | .error e => .error e
          | .ok baseValue => evalWithBase op operandStr baseValue
      | none => resolveReference reference config

mutual

/-- Recursively processes a value to resolve all interpolation expressions
(source `processObject`): null and undefined pass through, a string is
handed to the evaluator whenever it contains the interpolation opener,
arrays and objects are rebuilt, all other primitives pass through. -/
def processObject (config : YVal) : YVal → Except InterpErr YVal
  | .vUndefined => .ok .vUndefined
  | .vNull => .ok .vNull
  | .vStr s =>
      if hasInterpStart s.toList then evaluateInterpolation s config
      else .ok (.vStr s)
  | .vSeq items =>
      match processItems config items with
      | .error e => .error e
      | .ok items2 => .ok (.vSeq items2)
  | .vMap entries =>
      match processEntries config entries with
      | .error e => .error e
      | .ok entries2 => .ok (.vMap entries2)
  | v => .ok v

/-- Element-wise interpolation over an array (the map in `processObject`). -/
def processItems (config : YVal) : List YVal → Except InterpErr (List YVal)
  | [] => .ok []
  | v :: rest =>
      match processObject config v with
      | .error e => .error e
      | .ok v2 =>
          match processItems config rest with
          | .error e => .error e
          | .ok rest2 => .ok (v2 :: rest2)

/-- Entry-wise interpolation over an object (the rebuild loop in
`processObject`). -/
def processEntries (config : YVal) : List (String × YVal) → Except InterpErr (List (String × YVal))
  | [] => .ok []
  | (k, v) :: rest =>
      match processObject config v with
      | .error e => .error e
      | .ok v2 =>
          match processEntries config rest with
          | .error e => .error e
          | .ok rest2 => .ok ((k, v2) :: rest2)

end

/-!
Graph structure builder (the network processor module).
-/

/-- The reserved delimiter on which source references are split (the source
comment records that it was changed from the colon to the dot). -/
def sourceRefDelimiter : Char := '.'

/-- A module's `config` field: either a path string referencing an external
configuration file, or an inline parameter mapping. -/
inductive ModuleConfig where
  | path (p : String)
  | inline (v : YVal)

/-- A regular module descriptor (interface `YamlModule`).  The declared type
of `inp_src` also admits a string mapping, but the edge builder casts it to
a string array before iterating, which is the only shape any claim
exercises; a mapping-shaped `inp_src` would make the iteration throw, which
`edgesForEntry` models below. -/
structure YamlModule where
  cls : Option String := none
  inp_src : Option (List String) := none
  out_num : Option Int := none
  config : Option ModuleConfig := none

/-- One value of the `modules` record: the `input` entry carries a plain
sequence of slot names, the `output` entry a sequence or a mapping of source
references, and every other entry a `YamlModule`. -/
inductive MVal where
  | arr (xs : List String)
  | dict (es : List (String × String))
  | mod (m : YamlModule)

/-- Interface `YamlConfig`: the mapping from module name to module payload,
in declaration order. -/
structure YamlConfig where
  modules : List (String × MVal)

/-- First payload bound to a module name. -/
def jsLookupMVal : List (String × MVal) → String → Option MVal
  | [], _ => none
  | (k, v) :: rest, key => if k == key then some v else jsLookupMVal rest key

/-- Node payload (interface `ModuleNodeData`).  The 2D position assigned by
the dagre layout pass is not modelled; no claim mentions coordinates. -/
structure ModuleNodeData where
  label : String
  cls : Option String
  module_type : Option String
  isInput : Bool
  isOutput : Bool
  outNum : Int
  inputSources : Option MVal
  config : Option ModuleConfig

/-- A graph node as produced by the builder (`ntype` is the source field
`type`). -/
structure GNode where
  id : String
  ntype : String
  data : ModuleNodeData

/-- A graph edge as produced by the builder. -/
structure GEdge where
  id : String
  source : String
  target : String
  sourceHandle : Option String
  targetHandle : String
  label : String
deriving DecidableEq

/-- Structure returned by the builder. -/
structure NetworkStructure where
  nodes : List GNode
  edges : List GEdge

/-- JS `x || 1` on the declared output count: undefined and zero (falsy)
default to one. -/
def jsOrOne : Option Int → Int
  | some n => if n == 0 then 1 else n
  | none => 1

/-- The node produced for one `modules` entry (the map at the top of
`processNetworkStructure`).  For the `input` and `output` pseudo-entries the
raw payload is stored as `inputSources` and every other datum keeps its
initial value; for a regular entry the descriptor fields are copied.  A
regular-named entry whose payload is a raw sequence or mapping is read
through the same unchecked cast, so its descriptor fields are undefined. -/
def buildNode (entry : String × MVal) : GNode :=
  let moduleName := entry.1
  if moduleName == "input" then
    { id := moduleName, ntype := "input",
      data := { label := moduleName, cls := none, module_type := none,
                isInput := true, isOutput := false, outNum := 1,
                inputSources := some entry.2, config := none } }
  else if moduleName == "output" then
    { id := moduleName, ntype := "output",
      data := { label := moduleName, cls := none, module_type := none,
                isInput := false, isOutput := true, outNum := 1,
                inputSources := some entry.2, config := none } }
  else
    match entry.2 with
    | .mod m =>
        { id := moduleName, ntype := "default",
          data := { label := moduleName, cls := m.cls,
                    module_type := if m.cls == some "ComposableModel" then some "ComposableModel" else none,
                    isInput := false, isOutput := false, outNum := jsOrOne m.out_num,
                    inputSources := m.inp_src.map MVal.arr, config := m.config } }
    | mv =>
        { id := moduleName, ntype := "default",
          data := { label := moduleName, cls := none, module_type := none,
                    isInput := false, isOutput := false, outNum := 1,
                    inputSources := some mv, config := none } }

/-- JS parseInt with radix ten: optional leading whitespace and sign, then a
digit prefix; `none` models NaN. -/
def jsParseInt (s : String) : Option Int :=
  let parseDigits : List Char → Option Nat := fun cs =>
    let ds := cs.takeWhile Char.isDigit
    if ds.isEmpty then none else some (digitsVal ds)
  match s.toList.dropWhile isJsSpace with
  | '-' :: rest => (parseDigits rest).map (fun n => -(n : Int))
  | '+' :: rest => (parseDigits rest).map (fun n => (n : Int))
  | cs => (parseDigits cs).map (fun n => (n : Int))

/-- Parse an input source string into module name and output index (source
`parseInputSource`): split on the reserved delimiter; one part means the
output index is undefined, otherwise the second part goes through parseInt
(whose NaN is the inner `none`). -/
def parseInputSource (inputSource : String) : String × Option (Option Int) :=
  match (splitOnCharAux sourceRefDelimiter inputSource.toList []).map List.asString with
  | [p] => (p, none)
  | p :: p2 :: _ => (p, some (jsParseInt p2))
  | [] => ("", none)

/-- Truthiness of the parsed output index (`sourceOutput ? ... : ...`):
undefined, NaN and zero are falsy. -/
def jsOutTruthy : Option (Option Int) → Bool
  | some (some n) => n != 0
  | _ => false

/-- The check `sourceOutput !== undefined`. -/
def jsOutDefined : Option (Option Int) → Bool
  | some _ => true
  | none => false

/-- Template rendering of the parsed output index. -/
def jsOutStr : Option (Option Int) → String
  | some (some n) => toString n
  | some none => "NaN"
  | none => "undefined"

/-- Whether the source module referenced by an `output` edge is declared
with more than one output: the payload must exist and be an object that is
neither a string nor an array, and its `out_num` must be defined and
greater than one (a mapping payload reads `out_num` as undefined). -/
def hasMultipleOutputs (modules : List (String × MVal)) (sourceName : String) : Bool :=
  match jsLookupMVal modules sourceName with
  | some (.mod m) =>
      match m.out_num with
      | some n => n > 1
      | none => false
  | _ => false

/-- An edge into the `output` pseudo-node for one bound source (shared body
of the sequence and mapping branches; `suffix` is the positional index or
the output name). -/
def outputEdgeForSource (modules : List (String × MVal)) (moduleName : String)
    (inputSource : String) (suffix : String) : GEdge :=
  let parsed := parseInputSource inputSource
  let sourceName := parsed.1
  let sourceOutput := parsed.2
  let multi := hasMultipleOutputs modules sourceName
  { id := sourceName ++ (if jsOutTruthy sourceOutput then ":" ++ jsOutStr sourceOutput else "")
        ++ "-to-" ++ moduleName ++ "-" ++ suffix,
    source := sourceName, target := moduleName,
    sourceHandle := if jsOutDefined sourceOutput then some ("output-" ++ jsOutStr sourceOutput) else none,
    targetHandle := "input-" ++ suffix,
    label := if multi && jsOutDefined sourceOutput then sourceName ++ ":" ++ jsOutStr sourceOutput else sourceName }

/-- A runtime exception raised while building edges (the unchecked casts of
the source can make it call a method on a value that lacks it). -/
inductive BuildErr where
  | typeError (msg : String)
deriving DecidableEq

/-- JS `Array.prototype.indexOf`: index of the first occurrence, `none`
models the minus-one result. -/
def jsIndexOf : List String → String → Option Nat
  | [], _ => none
  | x :: rest, s => if x == s then some 0 else (jsIndexOf rest s).map (fun n => n + 1)

/-- The edge produced for element `inputStr` at position `index` of a
regular module's `inp_src`: the element is first looked up verbatim among
the `input` pseudo-module's slot names, and only on a miss parsed as a
module reference.  The slot lookup reads `modules.input` through an
unchecked cast, so a missing or non-array `input` entry raises a
TypeError. -/
def regularEdge (modules : List (String × MVal)) (moduleName : String)
    (inputStr : String) (index : Nat) : Except BuildErr GEdge :=
  match jsLookupMVal modules "input" with
  | some (.arr inputInputs) =>
      match jsIndexOf inputInputs inputStr with
      | some idx =>
          .ok { id := "input-" ++ inputStr ++ "-to-" ++ moduleName ++ "-" ++ toString index,
                source := "input", target := moduleName,
                sourceHandle := some ("output-" ++ toString idx),
                targetHandle := "input-" ++ toString index,
                label := inputStr }
      | none =>
          let parsed := parseInputSource inputStr
          let sourceName := parsed.1
          let sourceOutput := parsed.2
          .ok { id := sourceName ++ (if jsOutTruthy sourceOutput then ":" ++ jsOutStr sourceOutput else "")
                    ++ "-to-" ++ moduleName ++ "-" ++ toString index,
                source := sourceName, target := moduleName,
                sourceHandle := if jsOutDefined sourceOutput then some ("output-" ++ jsOutStr sourceOutput) else none,
                targetHandle := "input-" ++ toString index,
                label := inputStr }
  | _ => .error (.typeError "inputInputs.indexOf is not a function")

/-- Edge builder for the elements of a regular module's `inp_src` array,
carrying the element index. -/
def regularEdges (modules : List (String × MVal)) (moduleName : String)
    (index : Nat) : List String → Except BuildErr (List GEdge)
  | [] => .ok []
  | x :: rest =>
      match regularEdge modules moduleName x index with
      | .error e => .error e
      | .ok edge =>
          match regularEdges modules moduleName (index + 1) rest with
          | .error e => .error e
          | .ok edges => .ok (edge :: edges)

/-- Positional edges for an `output` entry whose payload is a sequence. -/
def outputSeqEdges (modules : List (String × MVal)) (moduleName : String)
    (index : Nat) : List String → List GEdge
  | [] => []
  | x :: rest =>
      outputEdgeForSource modules moduleName x (toString index)
        :: outputSeqEdges modules moduleName (index + 1) rest

/-- First string bound to a key in a string mapping. -/
def jsLookupEntriesStr : List (String × String) → String → Option String
  | [], _ => none
  | (k, v) :: rest, key => if k == key then some v else jsLookupEntriesStr rest key

/-- The edges contributed by one `modules` entry (one iteration of the edge
loop of `processNetworkStructure`).  The `input` entry contributes none; an
`output` payload that is a sequence or mapping contributes one edge per
bound source; off-shape payloads model the TypeError the unchecked casts
would raise when a method is called on a value that lacks it. -/
def edgesForEntry (modules : List (String × MVal)) (entry : String × MVal) :
    Except BuildErr (List GEdge) :=
  let moduleName := entry.1
  if moduleName == "input" then .ok []
  else if moduleName == "output" then
    match entry.2 with
    | .arr outputInputs => .ok (outputSeqEdges modules moduleName 0 outputInputs)
    | .dict outputInputs =>
        .ok (outputInputs.map (fun kv => outputEdgeForSource modules moduleName kv.2 kv.1))
    | .mod m =>
        -- an `output` entry holding a descriptor object is iterated with
        -- Object.entries; any present field is a non-string source whose
        -- split call throws, an empty object yields no edges
        if m.cls.isNone && m.inp_src.isNone && m.out_num.isNone && m.config.isNone
        then .ok []
        else .error (.typeError "inputSource.split is not a function")
  else
    match entry.2 with
    | .mod m =>
        match m.inp_src with
        | none => .ok []
        | some inputs => regularEdges modules moduleName 0 inputs
    | .arr _ => .ok []
    | .dict es =>
        -- a regular-named entry holding a raw mapping reads `inp_src`
        -- through the cast: a string-valued `inp_src` key is truthy unless
        -- empty, and iterating a string throws
        match jsLookupEntriesStr es "inp_src" with
        | some s => if s == "" then .ok [] else .error (.typeError "inputs.forEach is not a function")
        | none => .ok []

/-- Concatenation of the per-entry edge lists, aborting on the first raised
exception, as the shared-array forEach of the source does. -/
def edgesForEntries (modules : List (String × MVal)) :
    List (String × MVal) → Except BuildErr (List GEdge)
  | [] => .ok []
  | entry :: rest =>
      match edgesForEntry modules entry with
      | .error e => .error e
      | .ok edges =>
          match edgesForEntries modules rest with
          | .error e => .error e
          | .ok more => .ok (edges ++ more)

/-- The dagre-based layout pass (source `applyLayout`) assigns coordinates
to the nodes and returns the same node list (ids and data unchanged) and
the same edge list; since positions are not modelled, it is the identity
here. -/
def applyLayout (network : NetworkStructure) : NetworkStructure := network

/-- Process the configuration into a network structure (source
`processNetworkStructure`): one node per `modules` entry, then the edge
loop, then layout. -/
def processNetworkStructure (config : YamlConfig) : Except BuildErr NetworkStructure :=
  let modules := config.modules
  let nodes := modules.map buildNode
  match edgesForEntries modules modules with
  | .error e => .error e
  | .ok edges => .ok (applyLayout { nodes := nodes, edges := edges })

/-- The renderer's reading of a handle id as a port index: split on the
dash, parse the second field, with NaN and a missing field defaulting to
zero (the source applies this to `sourceHandle || "output-0"` and
`targetHandle || "input-0"`). -/
def handlePortIndex (handleId : String) : Int :=
  match (jsSplit handleId '-').get? 1 with
  | some part =>
      match jsParseInt part with
      | some n => if n == 0 then 0 else n
      | none => 0
  | none => 0

/-- Effective source port of an edge as the renderer resolves it. -/
def effSourcePort (e : GEdge) : Int :=
  handlePortIndex (e.sourceHandle.getD "output-0")

/-- Effective target port of an edge as the renderer resolves it (the empty
string is falsy). -/
def effTargetPort (e : GEdge) : Int :=
  handlePortIndex (if e.targetHandle == "" then "input-0" else e.targetHandle)

/-!
Configuration reference resolver (the YAML parser module).
-/

/-- Whether a parsed value has JS typeof object and is not null (arrays
included), the acceptance test for a fetched parameter file. -/
def isJsObject : YVal → Bool
  | .vMap _ => true
  | .vSeq _ => true
  | _ => false

/-- JS `String.prototype.startsWith`. -/
def jsStartsWith (s pre : String) : Bool :=
  s.toList.take pre.toList.length == pre.toList

/-- One iteration of `resolveConfigReferences`: entries named `entry` or
`exit` are kept verbatim; a module whose `config` is a path string has the
path resolved against the base path (absolute paths kept as-is) and fetched
from the external store, modelled by `fetchStore` (`none` covers both a
failed fetch and an unparseable file, the exceptions the loop catches); a
parse result that is not an object is rejected; every failure keeps the
original module payload. -/
def resolveModuleEntry (fetchStore : String → Option YVal) (basePath : String)
    (moduleName : String) (moduleData : MVal) : MVal :=
  if moduleName == "entry" || moduleName == "exit" then moduleData
  else
    match moduleData with
    | .mod m =>
        match m.config with
        | some (.path p) =>
            let configPath := if jsStartsWith p "/" then p else basePath ++ p
            match fetchStore configPath with
            | none => moduleData
            | some parsedConfig =>
                if isJsObject parsedConfig then .mod { m with config := some (.inline parsedConfig) }
                else moduleData
        | _ => moduleData
    | _ => moduleData

/-- Resolves config fields that are strings pointing to YAML files (source
`resolveConfigReferences`): each module is processed independently into a
fresh record, and the input configuration is returned rebuilt (the source
never mutates it). -/
def resolveConfigReferences (fetchStore : String → Option YVal) (config : YamlConfig)
    (basePath : String) : YamlConfig :=
  { modules := config.modules.map (fun kv => (kv.1, resolveModuleEntry fetchStore basePath kv.1 kv.2)) }

/-!
Subgraph fetch (the API service) and the navigation controller (the
NetworkVisualizer component).  React state relevant to the claims is
collected in `VisState`; the external subgraph store is a function from
relative path to the configuration it holds, `none` meaning the backend
answers 404 with the distinguished error payload.  Each fetch helper also
returns the number of network fetches it performed, so that claims about
re-fetching are statable.
-/

/-- The message of the distinguished error thrown by `getSubgraphConfig`
when the backend reports the config file missing: the error type tag, the
offending path and the module name, joined with colons. -/
def mkNotFoundErr (configPath moduleName : String) : String :=
  "CONFIG_FILE_NOT_FOUND:" ++ configPath ++ ":" ++ moduleName

/-- The user-facing message the double-click handler builds from the parsed
fields of a config-file-not-found error. -/
def mkNotFoundMsg (configFilePath modName : String) : String :=
  "The configuration file " ++ configFilePath ++ " for " ++ modName
    ++ " is not found, please upload as a folder."

/-- Fetch a subgraph configuration (source `getSubgraphConfig`): without an
active upload session it throws before any fetch; otherwise it performs one
fetch, turning a 404 with the distinguished payload into the tagged error
message.  The second component counts fetches. -/
def getSubgraphConfig (store : String → Option YamlConfig) (uploadId : Option String)
    (relativePath : String) (moduleName : String) : Except String YamlConfig × Nat :=
  match uploadId with
  | none => (.error "No active upload session found. Please upload a file or folder first.", 0)
  | some _ =>
      match store relativePath with
      | none => (.error (mkNotFoundErr relativePath moduleName), 1)
      | some cfg => (.ok cfg, 1)

/-- One snapshot of the rendered graph kept in the history stack. -/
structure GraphState where
  nodes : List GNode
  edges : List GEdge
  config : Option YamlConfig
  triggerNodeId : Option String
  fullPath : Option String

/-- The component state the claims are about: displayed nodes and edges,
error banner, upload session, history stack with current index, and the
subgraph cache record. -/
structure VisState where
  nodes : List GNode
  edges : List GEdge
  error : Option String
  currentUploadId : Option String
  historyStack : List GraphState
  currentGraphIndex : Int
  subgraphCache : List (String × GraphState)

/-- The presentation pass of `createGraphElements` sets every node's type
to custom (edge styling fields are not modelled). -/
def toCustom (n : GNode) : GNode := { n with ntype := "custom" }

/-- Source `createGraphElements`: build the structure and map the nodes to
the custom presentation type. -/
def createGraphElements (config : YamlConfig) : Except BuildErr NetworkStructure :=
  match processNetworkStructure config with
  | .error e => .error e
  | .ok net => .ok { nodes := net.nodes.map toCustom, edges := net.edges }

/-- Message of a build exception, as interpolated into the error banner. -/
def buildErrMsg : BuildErr → String
  | .typeError msg => msg

/-- Source `processConfig` on an initial load: on success the history stack
is replaced by the single new state at index zero, the subgraph cache is
cleared, and the new nodes and edges are displayed; a build exception only
sets the error banner. -/
def processConfigInitial (s : VisState) (config : YamlConfig) (initialModelName : String) :
    VisState :=
  match createGraphElements config with
  | .error e => { s with error := some ("Error processing network structure: " ++ buildErrMsg e) }
  | .ok net =>
      let newGraphState : GraphState :=
        { nodes := net.nodes, edges := net.edges, config := some config,
          triggerNodeId := none, fullPath := some initialModelName }
      { s with error := none,
               historyStack := [newGraphState], currentGraphIndex := 0,
               subgraphCache := [],
               nodes := newGraphState.nodes, edges := newGraphState.edges }

/-- Source `processConfig` on a subgraph build (isInitialLoad false): the
stack is untouched; on success the new GraphState is returned tagged with
the triggering node id (the handler adds the full path), on a build
exception null is returned.  The position offset against the parent node is
not modelled. -/
def processConfigSubgraph (config : YamlConfig) (triggerNodeId : String) : Option GraphState :=
  match createGraphElements config with
  | .error _ => none
  | .ok net =>
      some { nodes := net.nodes, edges := net.edges, config := some config,
             triggerNodeId := some triggerNodeId, fullPath := none }

/-- Source `handleNodeDoubleClick`: clear the error banner, look the node up
among the displayed nodes, fetch the referenced sub-configuration, build it,
truncate the stack after the current index and push; a fetch error is
reported through the banner (parsing the tagged not-found message with a
colon split) and leaves stack, index and displayed graph untouched.  The
subgraph cache is neither consulted nor written.  The second component
counts backend fetches. -/
def handleNodeDoubleClick (store : String → Option YamlConfig) (s : VisState)
    (currentModelPath : String) (nodeId : String) (configPath : String)
    (moduleName : String) : VisState × Nat :=
  let s0 := { s with error := none }
  match s.nodes.find? (fun n => n.id == nodeId) with
  | none => ({ s0 with error := some ("Node " ++ nodeId ++ " not found.") }, 0)
  | some parentNode =>
      let nodeModuleName :=
        if moduleName != "" then moduleName
        else if parentNode.data.label != "" then parentNode.data.label
        else "ComposableModel"
      match getSubgraphConfig store s.currentUploadId configPath nodeModuleName with
      | (.error errorMessage, k) =>
          if jsStartsWith errorMessage "CONFIG_FILE_NOT_FOUND:" then
            let parts := jsSplit errorMessage ':'
            let configFilePath := (parts.get? 1).getD ""
            let modName := if (parts.get? 2).getD "" != "" then (parts.get? 2).getD "" else nodeModuleName
            ({ s0 with error := some (mkNotFoundMsg configFilePath modName) }, k)
          else
            ({ s0 with error := some ("Error loading/processing subgraph from " ++ configPath
                  ++ ": " ++ errorMessage) }, k)
      | (.ok subgraphConfig, k) =>
          match processConfigSubgraph subgraphConfig nodeId with
          | none => ({ s0 with error := some ("Failed to process subgraph config from " ++ configPath) }, k)
          | some newlyGeneratedState =>
              let newFullPath :=
                if moduleName != "" then currentModelPath ++ "/" ++ moduleName else currentModelPath
              let stateWithFullPath := { newlyGeneratedState with fullPath := some newFullPath }
              let newStack := s.historyStack.take (s.currentGraphIndex + 1).toNat ++ [stateWithFullPath]
              ({ s0 with historyStack := newStack,
                         currentGraphIndex := (newStack.length : Int) - 1,
                         nodes := stateWithFullPath.nodes,
                         edges := stateWithFullPath.edges }, k)

/-- Source `handleGoBack`: when not at the bottom of the stack, restore the
previous snapshot's nodes and edges and step the index back (the re-centering
on the stored trigger node is a viewport effect, not modelled). -/
def handleGoBack (s : VisState) : VisState :=
  if s.currentGraphIndex > 0 then
    let previousIndex := s.currentGraphIndex - 1
    match s.historyStack.get? previousIndex.toNat with
    | some previousGraphState =>
        { s with nodes := previousGraphState.nodes,
                 edges := previousGraphState.edges,
                 currentGraphIndex := previousIndex }
    | none => s
  else s

/-!
Structural validation performed by `parseYamlContent` of the YAML parser
module: the only rejection is a falsy parse result or a missing or
non-object `modules` key.
-/

/-- JS truthiness of a parsed value. -/
def jsTruthy : YVal → Bool
  | .vUndefined => false
  | .vNull => false
  | .vBool b => b
  | .vNum q => !(q == 0)
  | .vNaN => false
  | .vStr s => !(s == "")
  | .vSeq _ => true
  | .vMap _ => true

/-- The acceptance test of `parseYamlContent` on the parsed tree: the chain
`!parsedYaml || !parsedYaml.modules || typeof parsedYaml.modules !== "object"`
raises the invalid-structure error exactly when this is false. -/
def parseYamlStructureOk (parsedYaml : YVal) : Bool :=
  jsTruthy parsedYaml &&
    (let m := jsIndex parsedYaml "modules"
     jsTruthy m && isJsObject m)

/-!
Concrete scenario data used by the claim theorems.
-/

/-- Shared example configuration of the interpolation claims: the path a.b
holds the number five. -/
def interpConfig : YVal := .vMap [("a", .vMap [("b", .vNum 5)])]

/-- The example configuration of the specification scenario: one input slot,
a single-output module, a two-output module, and a named output bound to the
second output of the latter. -/
def exampleConfigC1 : YamlConfig :=
  { modules := [
      ("input", .arr ["x"]),
      ("convA", .mod { inp_src := some ["x"], out_num := some 1 }),
      ("convB", .mod { inp_src := some ["convA"], out_num := some 2 }),
      ("output", .dict [("y", "convB.1")])] }

/-- The input-slot precedence example: slots x and y, and a module whose
single input source is the literal slot name x. -/
def c5Config : YamlConfig :=
  { modules := [("input", .arr ["x", "y"]), ("m", .mod { inp_src := some ["x"] })] }

/-- A configuration in which convA references the undeclared source name
ghost. -/
def c9Config : YamlConfig :=
  { modules := [("input", .arr ["x"]),
                ("convA", .mod { inp_src := some ["ghost"] }),
                ("output", .arr ["convA"])] }

/-- The parse tree of the same configuration, as the structural check of the
parser sees it. -/
def c9ParsedYaml : YVal :=
  .vMap [("modules", .vMap [
    ("input", .vSeq [.vStr "x"]),
    ("convA", .vMap [("inp_src", .vSeq [.vStr "ghost"])]),
    ("output", .vSeq [.vStr "convA"])])]

/-- The structure the builder produces for that configuration: the build
succeeds and contains an edge from the nonexistent node ghost. -/
def c9Net : NetworkStructure :=
  { nodes := [
      { id := "input", ntype := "input",
        data := { label := "input", cls := none, module_type := none,
                  isInput := true, isOutput := false, outNum := 1,
                  inputSources := some (.arr ["x"]), config := none } },
      { id := "convA", ntype := "default",
        data := { label := "convA", cls := none, module_type := none,
                  isInput := false, isOutput := false, outNum := 1,
                  inputSources := some (.arr ["ghost"]), config := none } },
      { id := "output", ntype := "output",
        data := { label := "output", cls := none, module_type := none,
                  isInput := false, isOutput := true, outNum := 1,
                  inputSources := some (.arr ["convA"]), config := none } }],
    edges := [
      { id := "ghost-to-convA-0", source := "ghost", target := "convA",
        sourceHandle := none, targetHandle := "input-0", label := "ghost" },
      { id := "convA-to-output-0", source := "convA", target := "output",
        sourceHandle := none, targetHandle := "input-0", label := "convA" }] }

/-- Sample store and configuration for the resolver witness: only the first
module's reference is fetchable. -/
def c10Store : String → Option YVal :=
  fun p => if p == "base/good.yaml" then some (.vMap [("k", .vNum 1)]) else none

/-- Configuration with one resolvable and one unresolvable reference. -/
def c10Config : YamlConfig :=
  { modules := [("mA", .mod { config := some (.path "good.yaml") }),
                ("mB", .mod { config := some (.path "bad.yaml") })] }

/-- A one-module configuration used as the fetched sub-configuration of the
navigation scenarios; it builds into a single node named n1. -/
def navConfig : YamlConfig := { modules := [("n1", .mod {})] }

/-- The navigation store: only the path sub.yaml resolves. -/
def navStore : String → Option YamlConfig :=
  fun p => if p == "sub.yaml" then some navConfig else none

/-- A component state before any load, with an active upload session. -/
def blankVis : VisState :=
  { nodes := [], edges := [], error := none, currentUploadId := some "upload1",
    historyStack := [], currentGraphIndex := -1, subgraphCache := [] }

/-- The state after loading `navConfig` as the root. -/
def navS0 : VisState := processConfigInitial blankVis navConfig "Model"

/-- Concrete three-deep history used by the C3 witness: the root snapshot,
a middle snapshot displaying the n1 node, and a top snapshot recorded as the
expansion of a node named old. -/
def c3StateA : GraphState :=
  { nodes := [], edges := [], config := none, triggerNodeId := none, fullPath := some "Model" }

/-- Middle snapshot of the C3 witness scenario. -/
def c3StateB : GraphState :=
  { nodes := [{ id := "n1", ntype := "custom",
                data := { label := "n1", cls := none, module_type := none,
                          isInput := false, isOutput := false, outNum := 1,
                          inputSources := none, config := none } }],
    edges := [], config := none, triggerNodeId := none, fullPath := some "Model/m" }

/-- Top snapshot of the C3 witness scenario, produced by expanding a node
named old. -/
def c3StateC : GraphState :=
  { nodes := [], edges := [], config := none, triggerNodeId := some "old",
    fullPath := some "Model/m/old" }

/-- Component state of the C3 witness scenario: depth-three stack, index
two. -/
def c3Vis : VisState :=
  { nodes := [], edges := [], error := none, currentUploadId := some "upload1",
    historyStack := [c3StateA, c3StateB, c3StateC], currentGraphIndex := 2,
    subgraphCache := [] }

/-!
Helper lemmas about the interpolator.
-/

/-- Stepping the reference walk over one defined, non-null value. -/
lemma resolveParts_cons (reference part : String) (rest : List String) (v : YVal)
    (hU : v ≠ .vUndefined) (hN : v ≠ .vNull) :
    resolveParts reference (part :: rest) v = resolveParts reference rest (jsIndex v part) := by
  cases v <;> simp_all [resolveParts]

/-- Every error raised while walking a reference is the path-does-not-exist
error naming that reference. -/
lemma resolveParts_error (reference : String) (parts : List String) (v : YVal) (e : InterpErr)
    (h : resolveParts reference parts v = .error e) : e = .refNotFound reference := by
  induction parts generalizing v with
  | nil => simp [resolveParts] at h
  | cons p rest ih =>
      cases v with
      | vUndefined => simp [resolveParts] at h; exact h.symm
      | vNull => simp [resolveParts] at h; exact h.symm
      | vBool b => exact ih (jsIndex (.vBool b) p) h
      | vNum q => exact ih (jsIndex (.vNum q) p) h
      | vNaN => exact ih (jsIndex .vNaN p) h
      | vStr s => exact ih (jsIndex (.vStr s) p) h
      | vSeq items => exact ih (jsIndex (.vSeq items) p) h
      | vMap entries => exact ih (jsIndex (.vMap entries) p) h

/-- Reduction of the evaluator on an expression-shaped interpolation. -/
lemma evaluateInterpolation_expr (expr inner refPath : String) (op : Char)
    (operandStr : String) (config : YVal)
    (h1 : findInterp expr.toList = some inner)
    (h2 : matchExpr (jsTrim inner).toList = some (refPath, op, operandStr)) :
    evaluateInterpolation expr config =
      match resolveReference refPath config with
      | .error e => .error e
      | .ok baseValue => evalWithBase op operandStr baseValue := by
  unfold evaluateInterpolation
  rw [h1]
  dsimp only
  rw [h2]

/-- Reduction of the evaluator on an interpolation whose content does not
match the expression regex: the whole trimmed content is resolved as a
dotted reference. -/
lemma evaluateInterpolation_fallback (expr inner : String) (config : YVal)
    (h1 : findInterp expr.toList = some inner)
    (h2 : matchExpr (jsTrim inner).toList = none) :
    evaluateInterpolation expr config = resolveReference (jsTrim inner) config := by
  unfold evaluateInterpolation
  rw [h1]
  dsimp only
  rw [h2]

/-!
Claim theorems for the interpolation resolver.
-/

/-- C6 counterexample: a string leaf that merely contains an interpolation
expression inside longer text is not returned unchanged; the whole leaf is
replaced by the resolved value. -/
theorem c6_partial_string_replaced :
    processObject interpConfig (.vStr "prefix ${a.b} suffix") = .ok (.vNum 5)
    ∧ (Except.ok (YVal.vNum 5) : Except InterpErr YVal) ≠ .ok (.vStr "prefix ${a.b} suffix") := by
  exact ⟨rfl, by simp⟩

/-- C6 (amended): the interpolation resolver hands a string leaf to the
evaluator whenever it contains the two-character interpolation opener
anywhere (the evaluator then replaces the entire leaf by the resolved value
of the first braced group); a string leaf without the opener and non-string
primitive leaves pass through unchanged. -/
theorem c6_interpolation_leaf_behavior :
    (∀ (config : YVal) (s : String), hasInterpStart s.toList = false →
        processObject config (.vStr s) = .ok (.vStr s))
    ∧ (∀ (config : YVal) (s : String), hasInterpStart s.toList = true →
        processObject config (.vStr s) = evaluateInterpolation s config)
    ∧ (∀ (config : YVal) (q : Rat), processObject config (.vNum q) = .ok (.vNum q))
    ∧ (∀ (config : YVal) (b : Bool), processObject config (.vBool b) = .ok (.vBool b))
    ∧ (∀ config : YVal, processObject config .vNull = .ok .vNull)
    ∧ processObject interpConfig (.vStr "prefix ${a.b} suffix") = .ok (.vNum 5) := by
  refine ⟨?_, ?_, ?_, ?_, ?_, rfl⟩
  · intro config s h
    simp only [String.toList] at h
    simp [processObject, h]
  · intro config s h
    simp only [String.toList] at h
    simp [processObject, h]
  · intro config q
    rfl
  · intro config b
    rfl
  · intro config
    rfl

/-- C6 witness: the unchanged cases at concrete inputs, through the claim
theorem. -/
theorem c6_interpolation_leaf_behavior_witness :
    processObject (.vMap []) (.vStr "plain") = .ok (.vStr "plain")
    ∧ processObject (.vMap []) (.vNum 7) = .ok (.vNum 7) :=
  ⟨c6_interpolation_leaf_behavior.1 (.vMap []) "plain" rfl,
   c6_interpolation_leaf_behavior.2.2.1 (.vMap []) 7⟩

/-- C7: when the configuration holds the number five at path a.b, the
interpolations on a.b and on a.b times two resolve to five and ten, and a
reference whose first key is absent at the root raises the
path-does-not-exist error. -/
theorem c7_dotted_path_and_arithmetic :
    (∀ (config a : YVal), jsIndex config "a" = a → a ≠ .vUndefined → a ≠ .vNull →
        jsIndex a "b" = .vNum 5 →
        evaluateInterpolation "${a.b}" config = .ok (.vNum 5)
        ∧ evaluateInterpolation "${a.b * 2}" config = .ok (.vNum 10))
    ∧ (∀ config : YVal, config ≠ .vUndefined → config ≠ .vNull →
        jsIndex config "missing" = .vUndefined →
        evaluateInterpolation "${missing.path}" config
          = .error (.refNotFound "missing.path")) := by
  constructor
  · intro config a ha haU haN hb
    have hcU : config ≠ .vUndefined := by
      intro hc; subst hc; simp [jsIndex] at ha; exact haU ha.symm
    have hcN : config ≠ .vNull := by
      intro hc; subst hc; simp [jsIndex] at ha; exact haU ha.symm
    have hrr : resolveReference "a.b" config = .ok (.vNum 5) := by
      have h0 : resolveReference "a.b" config = resolveParts "a.b" ["a", "b"] config := rfl
      rw [h0, resolveParts_cons "a.b" "a" ["b"] config hcU hcN, ha,
          resolveParts_cons "a.b" "b" [] a haU haN, hb]
      rfl
    constructor
    · rw [evaluateInterpolation_fallback "${a.b}" "a.b" config rfl rfl]
      exact hrr
    · rw [evaluateInterpolation_expr "${a.b * 2}" "a.b * 2" "a.b" '*' "2" config rfl rfl, hrr]
      show evalWithBase '*' "2" (.vNum 5) = .ok (.vNum 10)
      have h5 : evalWithBase '*' "2" (.vNum 5) = .ok (.vNum (5 * 2)) := rfl
      rw [h5]
      norm_num
  · intro config hU hN hm
    rw [evaluateInterpolation_fallback "${missing.path}" "missing.path" config rfl rfl]
    show resolveParts "missing.path" ["missing", "path"] config
      = .error (.refNotFound "missing.path")
    rw [resolveParts_cons "missing.path" "missing" ["path"] config hU hN, hm]
    rfl

/-- C7 witness: the three behaviors at the concrete configuration, through
the claim theorem. -/
theorem c7_dotted_path_and_arithmetic_witness :
    evaluateInterpolation "${a.b}" interpConfig = .ok (.vNum 5)
    ∧ evaluateInterpolation "${a.b * 2}" interpConfig = .ok (.vNum 10)
    ∧ evaluateInterpolation "${missing.path}" interpConfig
        = .error (.refNotFound "missing.path") := by
  refine ⟨?_, ?_, ?_⟩
  · exact (c7_dotted_path_and_arithmetic.1 interpConfig (.vMap [("b", .vNum 5)])
      rfl (by simp) (by simp) rfl).1
  · exact (c7_dotted_path_and_arithmetic.1 interpConfig (.vMap [("b", .vNum 5)])
      rfl (by simp) (by simp) rfl).2
  · exact c7_dotted_path_and_arithmetic.2 interpConfig
      (by simp [interpConfig]) (by simp [interpConfig]) rfl

/-- C8 counterexample: the chained expression on a.b is not a hard failure;
the whole content is treated as one dotted reference and resolves silently
to undefined. -/
theorem c8_chained_expression_silently_resolved :
    evaluateInterpolation "${a.b * 2 * 3}" interpConfig = .ok .vUndefined := rfl

/-- C8 (amended): interpolation content that is neither a bare dotted path
nor exactly path-operator-literal is not a hard failure: the whole trimmed
content falls back to dotted-reference resolution, whose only possible error
is the path-does-not-exist one (so the chained expression silently yields
undefined here); the unsupported-expression hard failure does occur when an
operator is applied to a path whose value is not a number. -/
theorem c8_malformed_expression_behavior :
    (∀ (expr inner : String) (config : YVal),
        findInterp expr.toList = some inner →
        matchExpr (jsTrim inner).toList = none →
        evaluateInterpolation expr config = resolveReference (jsTrim inner) config)
    ∧ (∀ (reference : String) (config : YVal) (e : InterpErr),
        resolveReference reference config = .error e → e = .refNotFound reference)
    ∧ evaluateInterpolation "${a.b * 2 * 3}" interpConfig = .ok .vUndefined
    ∧ evaluateInterpolation "${t * 2}" (.vMap [("t", .vStr "text")]) = .error .nonNumeric := by
  refine ⟨?_, ?_, rfl, rfl⟩
  · intro expr inner config h1 h2
    exact evaluateInterpolation_fallback expr inner config h1 h2
  · intro reference config e h
    exact resolveParts_error reference (jsSplit reference '.') config e h

/-- C8 witness: the fallback equation and the error shape at concrete
inputs, through the claim theorem. -/
theorem c8_malformed_expression_behavior_witness :
    evaluateInterpolation "${a.b * 2 * 3}" (.vMap [])
      = resolveReference (jsTrim "a.b * 2 * 3") (.vMap [])
    ∧ InterpErr.refNotFound "q.r" = .refNotFound "q.r" :=
  ⟨c8_malformed_expression_behavior.1 "${a.b * 2 * 3}" "a.b * 2 * 3" (.vMap []) rfl rfl,
   c8_malformed_expression_behavior.2.1 "q.r" (.vMap [("q", .vNull)])
     (.refNotFound "q.r") rfl⟩

/-!
Helper lemmas about the graph structure builder.
-/

/-- Every node carries the name of the entry it was built from as its id. -/
lemma buildNode_id (e : String × MVal) : (buildNode e).id = e.1 := by
  unfold buildNode
  dsimp only
  split
  · rfl
  · split
    · rfl
    · split <;> rfl

/-- On a successful build, the node list is the entry list mapped through
`buildNode`. -/
lemma processNetworkStructure_ok_nodes (config : YamlConfig) (st : NetworkStructure)
    (h : processNetworkStructure config = .ok st) :
    st.nodes = config.modules.map buildNode := by
  simp only [processNetworkStructure, applyLayout] at h
  split at h
  · cases h
  · cases h; rfl

/-!
Claim theorems for the graph structure builder.
-/

/-- C1 counterexample: the multi-output edge into the output pseudo-node is
labelled with a colon between module name and output index, which is not
the reserved delimiter (the dot) on which source references are parsed. -/
theorem c1_output_label_counterexample :
    (processNetworkStructure exampleConfigC1).map (fun st => st.edges.map GEdge.label)
      = .ok ["x", "convA", "convB:1"]
    ∧ ("convB:1" : String) ≠ "convB" ++ String.mk [sourceRefDelimiter] ++ "1" :=
  ⟨rfl, by decide⟩

/-- C1 (amended): the example configuration builds exactly the four nodes
input, convA, convB, output and the three edges input port zero to convA
port zero, convA port zero (the absent source handle, which the renderer
reads as port zero) to convB port zero, and convB port one to the output
port named y; the last edge's label is the colon-joined convB:1 (the label
separator is the colon, not the dot on which references are parsed). -/
theorem c1_example_scenario :
    (processNetworkStructure exampleConfigC1).map
        (fun st => (st.nodes.map GNode.id,
          st.edges.map (fun e => (e.source, effSourcePort e, e.target, e.targetHandle, e.label))))
      = .ok (["input", "convA", "convB", "output"],
          [("input", 0, "convA", "input-0", "x"),
           ("convA", 0, "convB", "input-0", "convA"),
           ("convB", 1, "output", "input-y", "convB:1")]) := rfl

/-- C5: an element of a regular module's inp_src that literally equals an
input slot name binds the edge to the pseudo-input node at the slot's
position, taking precedence over module-name resolution; otherwise the
element is split on the reserved delimiter and resolved as a module
reference; in particular, with slots x and y, inp_src x wires to the
pseudo-input node at output port zero and no node named x is involved. -/
theorem c5_input_slot_precedence :
    (∀ (modules : List (String × MVal)) (moduleName s : String) (i : Nat)
        (slots : List String) (k : Nat),
        jsLookupMVal modules "input" = some (.arr slots) →
        jsIndexOf slots s = some k →
        regularEdge modules moduleName s i =
          .ok { id := "input-" ++ s ++ "-to-" ++ moduleName ++ "-" ++ toString i,
                source := "input", target := moduleName,
                sourceHandle := some ("output-" ++ toString k),
                targetHandle := "input-" ++ toString i, label := s })
    ∧ (∀ (modules : List (String × MVal)) (moduleName s : String) (i : Nat)
        (slots : List String),
        jsLookupMVal modules "input" = some (.arr slots) →
        jsIndexOf slots s = none →
        regularEdge modules moduleName s i =
          .ok { id := (parseInputSource s).1
                    ++ (if jsOutTruthy (parseInputSource s).2
                        then ":" ++ jsOutStr (parseInputSource s).2 else "")
                    ++ "-to-" ++ moduleName ++ "-" ++ toString i,
                source := (parseInputSource s).1, target := moduleName,
                sourceHandle := if jsOutDefined (parseInputSource s).2
                                then some ("output-" ++ jsOutStr (parseInputSource s).2) else none,
                targetHandle := "input-" ++ toString i, label := s })
    ∧ ((processNetworkStructure c5Config).map
          (fun st => (st.nodes.map GNode.id,
            st.edges.map (fun e => (e.source, e.sourceHandle, e.target, e.targetHandle))))
        = .ok (["input", "m"], [("input", some "output-0", "m", "input-0")])) := by
  refine ⟨?_, ?_, rfl⟩
  · intro modules moduleName s i slots k h1 h2
    unfold regularEdge
    rw [h1]
    dsimp only
    rw [h2]
  · intro modules moduleName s i slots h1 h2
    unfold regularEdge
    rw [h1]
    dsimp only
    rw [h2]

/-- C5 witness: both branches at concrete inputs, through the claim
theorem. -/
theorem c5_input_slot_precedence_witness :
    regularEdge [("input", MVal.arr ["x", "y"])] "m" "x" 0
      = .ok { id := "input-x-to-m-0", source := "input", target := "m",
              sourceHandle := some "output-0", targetHandle := "input-0", label := "x" }
    ∧ regularEdge [("input", MVal.arr ["x", "y"])] "m" "other" 1
      = .ok { id := "other-to-m-1", source := "other", target := "m",
              sourceHandle := none, targetHandle := "input-1", label := "other" } :=
  ⟨c5_input_slot_precedence.1 [("input", MVal.arr ["x", "y"])] "m" "x" 0 ["x", "y"] 0 rfl rfl,
   c5_input_slot_precedence.2.1 [("input", MVal.arr ["x", "y"])] "m" "other" 1 ["x", "y"] rfl rfl⟩

/-- C9 counterexample: a module referencing a nonexistent source name is not
a fatal configuration error: the structural parse check passes, the build
succeeds, and the resulting graph contains an edge whose source id is not
among the node ids. -/
theorem c9_dangling_reference_not_fatal :
    parseYamlStructureOk c9ParsedYaml = true
    ∧ processNetworkStructure c9Config = .ok c9Net
    ∧ ("ghost" ∈ c9Net.edges.map GEdge.source)
    ∧ ("ghost" ∉ c9Net.nodes.map GNode.id) :=
  ⟨rfl, rfl, by decide, by decide⟩

/-- C9 (amended): neither the parser's structural check (which only requires
a truthy, object-typed modules key) nor the graph builder validates source
names; every successful build has exactly the declared module names as node
ids, and a configuration with a dangling reference builds successfully into
a graph whose edge set mentions a source id outside the node ids. -/
theorem c9_no_source_validation :
    (∀ (config : YamlConfig) (st : NetworkStructure),
        processNetworkStructure config = .ok st →
        st.nodes.map GNode.id = config.modules.map Prod.fst)
    ∧ processNetworkStructure c9Config = .ok c9Net
    ∧ ("ghost" ∈ c9Net.edges.map GEdge.source)
    ∧ ("ghost" ∉ c9Net.nodes.map GNode.id)
    ∧ parseYamlStructureOk c9ParsedYaml = true := by
  refine ⟨?_, rfl, by decide, by decide, rfl⟩
  intro config st h
  rw [processNetworkStructure_ok_nodes config st h, List.map_map]
  exact List.map_congr_left (fun e _ => buildNode_id e)

/-- C9 witness: the node-id equation at the concrete dangling configuration,
through the claim theorem. -/
theorem c9_no_source_validation_witness :
    c9Net.nodes.map GNode.id = c9Config.modules.map Prod.fst :=
  c9_no_source_validation.1 c9Config c9Net rfl

/-!
Claim theorems for the configuration reference resolver.
-/

/-- C10: reference resolution processes each module independently into a
fresh record (the input configuration is a value and is never mutated): the
module names and their order are preserved, a module whose fetch fails keeps
its original payload, and every entry of the result depends only on the
corresponding entry of the input, so one failure cannot abort the others. -/
theorem c10_per_module_resolution :
    (∀ (fetchStore : String → Option YVal) (config : YamlConfig) (basePath : String),
        (resolveConfigReferences fetchStore config basePath).modules.map Prod.fst
          = config.modules.map Prod.fst)
    ∧ (∀ (fetchStore : String → Option YVal) (basePath name : String)
        (m : YamlModule) (p : String),
        m.config = some (.path p) →
        fetchStore (if jsStartsWith p "/" then p else basePath ++ p) = none →
        resolveModuleEntry fetchStore basePath name (.mod m) = .mod m)
    ∧ (∀ (fetchStore : String → Option YVal) (config : YamlConfig) (basePath : String)
        (i : Nat) (name : String) (mv : MVal),
        config.modules.get? i = some (name, mv) →
        (resolveConfigReferences fetchStore config basePath).modules.get? i
          = some (name, resolveModuleEntry fetchStore basePath name mv)) := by
  refine ⟨?_, ?_, ?_⟩
  · intro fetchStore config basePath
    simp only [resolveConfigReferences, List.map_map]
    exact List.map_congr_left (fun kv _ => rfl)
  · intro fetchStore basePath name m p h1 h2
    unfold resolveModuleEntry
    split
    · rfl
    · dsimp only
      rw [h1]
      dsimp only
      rw [h2]
  · intro fetchStore config basePath i name mv h
    simp only [resolveConfigReferences, List.get?_map, h]
    rfl

/-- C10 witness: names preserved, the failing module kept verbatim, and the
entry-wise equation, all at the concrete store, through the claim
theorem. -/
theorem c10_per_module_resolution_witness :
    (resolveConfigReferences c10Store c10Config "base/").modules.map Prod.fst
      = c10Config.modules.map Prod.fst
    ∧ resolveModuleEntry c10Store "base/" "mB" (.mod { config := some (.path "bad.yaml") })
      = .mod { config := some (.path "bad.yaml") }
    ∧ (resolveConfigReferences c10Store c10Config "base/").modules.get? 0
      = some ("mA", resolveModuleEntry c10Store "base/" "mA" (.mod { config := some (.path "good.yaml") })) :=
  ⟨c10_per_module_resolution.1 c10Store c10Config "base/",
   c10_per_module_resolution.2.1 c10Store "base/" "mB" { config := some (.path "bad.yaml") }
     "bad.yaml" rfl rfl,
   c10_per_module_resolution.2.2 c10Store c10Config "base/" 0 "mA"
     (.mod { config := some (.path "good.yaml") }) rfl⟩

/-!
Claim theorems for the subgraph navigation controller.
-/

/-- C2 counterexample: expanding the same node with the same reference path
twice in a row performs a backend fetch both times (count one each), and the
subgraph cache stays empty: the cached state is never reused because it is
never written. -/
theorem c2_second_expansion_refetches :
    (handleNodeDoubleClick navStore navS0 "Model" "n1" "sub.yaml" "m").2 = 1
    ∧ (handleNodeDoubleClick navStore
        (handleNodeDoubleClick navStore navS0 "Model" "n1" "sub.yaml" "m").1
        "Model/m" "n1" "sub.yaml" "m").2 = 1
    ∧ (handleNodeDoubleClick navStore navS0 "Model" "n1" "sub.yaml" "m").1.historyStack.length = 2
    ∧ (handleNodeDoubleClick navStore
        (handleNodeDoubleClick navStore navS0 "Model" "n1" "sub.yaml" "m").1
        "Model/m" "n1" "sub.yaml" "m").1.historyStack.length = 3
    ∧ (handleNodeDoubleClick navStore navS0 "Model" "n1" "sub.yaml" "m").1.subgraphCache = [] :=
  ⟨rfl, rfl, rfl, rfl, rfl⟩

/-- C2 (amended): the double-click handler neither consults nor writes the
subgraph cache: every expansion with an active upload session and a visible
trigger node performs exactly one backend fetch, whatever the cache holds,
and leaves the cache as it was; loading a new root clears the cache. -/
theorem c2_cache_never_used :
    (∀ (store : String → Option YamlConfig) (s : VisState)
        (path nodeId configPath moduleName uid : String) (parent : GNode),
        s.currentUploadId = some uid →
        s.nodes.find? (fun n => n.id == nodeId) = some parent →
        (handleNodeDoubleClick store s path nodeId configPath moduleName).2 = 1
        ∧ (handleNodeDoubleClick store s path nodeId configPath moduleName).1.subgraphCache
            = s.subgraphCache)
    ∧ (∀ (s : VisState) (config : YamlConfig) (name : String) (net : NetworkStructure),
        createGraphElements config = .ok net →
        (processConfigInitial s config name).subgraphCache = []) := by
  constructor
  · intro store s path nodeId configPath moduleName uid parent hu hf
    unfold handleNodeDoubleClick
    rw [hf]
    dsimp only
    unfold getSubgraphConfig
    rw [hu]
    dsimp only
    cases hst : store configPath with
    | none =>
        dsimp only
        constructor
        · split <;> rfl
        · split <;> rfl
    | some cfg =>
        dsimp only
        cases hps : processConfigSubgraph cfg nodeId <;> exact ⟨rfl, rfl⟩
  · intro s config name net h
    unfold processConfigInitial
    rw [h]

/-- Splitting a list that opens with a separator-free prefix followed by the
separator: the prefix becomes one field and splitting continues behind. -/
lemma splitOnCharAux_append_sep (sep : Char) (xs ys : List Char) :
    ∀ acc : List Char, (∀ c ∈ xs, (c == sep) = false) →
    splitOnCharAux sep (xs ++ sep :: ys) acc
      = (acc.reverse ++ xs) :: splitOnCharAux sep ys [] := by
  induction xs with
  | nil => intro acc h; simp [splitOnCharAux]
  | cons x rest ih =>
      intro acc h
      have hx := h x (List.mem_cons_self x rest)
      simp only [List.cons_append, splitOnCharAux, hx, Bool.false_eq_true, if_false,
        List.append_eq]
      rw [ih (x :: acc) (fun c hc => h c (List.mem_cons_of_mem x hc))]
      simp

/-- Splitting a separator-free list yields a single field. -/
lemma splitOnCharAux_no_sep (sep : Char) (xs : List Char) :
    ∀ acc : List Char, (∀ c ∈ xs, (c == sep) = false) →
    splitOnCharAux sep xs acc = [acc.reverse ++ xs] := by
  induction xs with
  | nil => intro acc h; simp [splitOnCharAux]
  | cons x rest ih =>
      intro acc h
      have hx := h x (List.mem_cons_self x rest)
      simp only [splitOnCharAux, hx, Bool.false_eq_true, if_false]
      rw [ih (x :: acc) (fun c hc => h c (List.mem_cons_of_mem x hc))]
      simp

/-- Character shape of the tagged not-found message. -/
lemma mkNotFoundErr_toList (p m : String) :
    (mkNotFoundErr p m).toList
      = "CONFIG_FILE_NOT_FOUND".toList ++ ':' :: (p.toList ++ ':' :: m.toList) := by
  simp only [mkNotFoundErr, String.toList, String.data_append, List.append_assoc]
  rfl

/-- A string whose character list opens with another string's characters
starts with it. -/
lemma jsStartsWith_of_append (s pre : String) (tail : List Char)
    (h : s.toList = pre.toList ++ tail) :
    jsStartsWith s pre = true := by
  unfold jsStartsWith
  rw [h, List.take_left]
  exact beq_self_eq_true _

/-- The colon split of the tagged not-found message recovers the tag, path
and module name exactly when path and module name are colon-free. -/
lemma jsSplit_mkNotFoundErr (p m : String)
    (hp : ∀ c ∈ p.toList, (c == ':') = false)
    (hm : ∀ c ∈ m.toList, (c == ':') = false) :
    jsSplit (mkNotFoundErr p m) ':' = ["CONFIG_FILE_NOT_FOUND", p, m] := by
  unfold jsSplit
  rw [mkNotFoundErr_toList p m,
    splitOnCharAux_append_sep ':' "CONFIG_FILE_NOT_FOUND".toList
      (p.toList ++ ':' :: m.toList) [] (by decide),
    splitOnCharAux_append_sep ':' p.toList m.toList [] hp,
    splitOnCharAux_no_sep ':' m.toList [] hm]
  simp only [List.reverse_nil, List.nil_append, List.map_cons, List.map_nil]
  rfl

/-- C4 counterexample: when the offending path itself contains a colon, the
colon split of the tagged message mangles the surfaced fields: the expand on
a missing a:b.yaml reports path a and module b.yaml instead of path a:b.yaml
and module mod (the stack itself stays a single root state). -/
theorem c4_colon_path_mangles_error :
    (handleNodeDoubleClick navStore navS0 "Model" "n1" "a:b.yaml" "mod").1.error
      = some (mkNotFoundMsg "a" "b.yaml")
    ∧ mkNotFoundMsg "a" "b.yaml" ≠ mkNotFoundMsg "a:b.yaml" "mod"
    ∧ (handleNodeDoubleClick navStore navS0 "Model" "n1" "a:b.yaml" "mod").1.historyStack.length
        = 1 :=
  ⟨rfl, by decide, rfl⟩

/-- C4 (amended): a failed sub-configuration fetch always leaves the history
stack, current index and displayed node and edge sets unchanged (no partial
state is pushed), and the surfaced message carries the offending path and the
module name whenever neither contains a colon — the handler recovers them by
colon-splitting the tagged error string, so a colon inside either field
truncates what is surfaced. -/
theorem c4_notfound_expand_no_mutation :
    (∀ (store : String → Option YamlConfig) (s : VisState)
        (path nodeId configPath moduleName uid : String) (parent : GNode),
        s.currentUploadId = some uid →
        s.nodes.find? (fun n => n.id == nodeId) = some parent →
        store configPath = none →
        (handleNodeDoubleClick store s path nodeId configPath moduleName).1.historyStack
            = s.historyStack
        ∧ (handleNodeDoubleClick store s path nodeId configPath moduleName).1.currentGraphIndex
            = s.currentGraphIndex
        ∧ (handleNodeDoubleClick store s path nodeId configPath moduleName).1.nodes = s.nodes
        ∧ (handleNodeDoubleClick store s path nodeId configPath moduleName).1.edges = s.edges)
    ∧ (∀ (store : String → Option YamlConfig) (s : VisState)
        (path nodeId configPath moduleName uid : String) (parent : GNode),
        s.currentUploadId = some uid →
        s.nodes.find? (fun n => n.id == nodeId) = some parent →
        store configPath = none →
        moduleName ≠ "" →
        (∀ c ∈ configPath.toList, (c == ':') = false) →
        (∀ c ∈ moduleName.toList, (c == ':') = false) →
        (handleNodeDoubleClick store s path nodeId configPath moduleName).1.error
          = some (mkNotFoundMsg configPath moduleName)) := by
  constructor
  · intro store s path nodeId configPath moduleName uid parent hu hf hst
    unfold handleNodeDoubleClick
    rw [hf]
    dsimp only
    unfold getSubgraphConfig
    rw [hu]
    dsimp only
    rw [hst]
    dsimp only
    refine ⟨?_, ?_, ?_, ?_⟩ <;> (split <;> rfl)
  · intro store s path nodeId configPath moduleName uid parent hu hf hst hne hp hm
    unfold handleNodeDoubleClick
    rw [hf]
    dsimp only
    unfold getSubgraphConfig
    rw [hu]
    dsimp only
    rw [hst]
    dsimp only
    rw [if_pos (bne_iff_ne.mpr hne)]
    rw [if_pos (jsStartsWith_of_append _ _ _ (by rw [mkNotFoundErr_toList]; rfl))]
    rw [jsSplit_mkNotFoundErr configPath moduleName hp hm]
    simp only [List.get?_cons_succ, List.get?_cons_zero, Option.getD_some]
    rw [if_pos (bne_iff_ne.mpr hne)]

/-- C4 witness: a not-found expand at the concrete root state, through the
claim theorem: state untouched and the message carrying path and module
name. -/
theorem c4_notfound_expand_no_mutation_witness :
    (handleNodeDoubleClick navStore navS0 "Model" "n1" "missing.yaml" "mod").1.historyStack
        = navS0.historyStack
    ∧ (handleNodeDoubleClick navStore navS0 "Model" "n1" "missing.yaml" "mod").1.error
        = some (mkNotFoundMsg "missing.yaml" "mod") :=
  ⟨(c4_notfound_expand_no_mutation.1 navStore navS0 "Model" "n1" "missing.yaml" "mod" "upload1"
      { id := "n1", ntype := "custom",
        data := { label := "n1", cls := none, module_type := none,
                  isInput := false, isOutput := false, outNum := 1,
                  inputSources := none, config := none } } rfl rfl rfl).1,
   c4_notfound_expand_no_mutation.2 navStore navS0 "Model" "n1" "missing.yaml" "mod" "upload1"
      { id := "n1", ntype := "custom",
        data := { label := "n1", cls := none, module_type := none,
                  isInput := false, isOutput := false, outNum := 1,
                  inputSources := none, config := none } } rfl rfl rfl
      (by decide) (by decide) (by decide)⟩

/-- C3: from a depth-three stack at index two, one goBack (index becomes
one) followed by a successful expand on a node whose expansion is not the
one stored at depth three truncates before pushing: the stack is again
depth three, its first two elements are untouched, its index-two element is
the newly expanded snapshot, and that element differs from the previously
stored one. -/
theorem c3_goback_then_expand_truncates :
    ∀ (store : String → Option YamlConfig) (s : VisState)
      (path nodeId configPath moduleName uid : String)
      (a b c : GraphState) (cfg : YamlConfig) (net : NetworkStructure) (parent : GNode),
      s.historyStack = [a, b, c] →
      s.currentGraphIndex = 2 →
      s.currentUploadId = some uid →
      b.nodes.find? (fun n => n.id == nodeId) = some parent →
      store configPath = some cfg →
      createGraphElements cfg = .ok net →
      c.triggerNodeId ≠ some nodeId →
      (handleNodeDoubleClick store (handleGoBack s) path nodeId configPath moduleName).1.historyStack
        = [a, b,
           { nodes := net.nodes, edges := net.edges, config := some cfg,
             triggerNodeId := some nodeId,
             fullPath := some (if moduleName != "" then path ++ "/" ++ moduleName else path) }]
      ∧ (handleNodeDoubleClick store (handleGoBack s) path nodeId configPath moduleName).1.currentGraphIndex
        = 2
      ∧ (handleNodeDoubleClick store (handleGoBack s) path nodeId configPath
          moduleName).1.historyStack.get? 2 ≠ some c := by
  intro store s path nodeId configPath moduleName uid a b c cfg net parent
    hstack hidx hu hfind hstore hbuild htrig
  obtain ⟨nodes0, edges0, err0, uid0, stack0, idx0, cache0⟩ := s
  dsimp only at hstack hidx hu
  subst hstack hidx hu
  have hgb : handleGoBack (VisState.mk nodes0 edges0 err0 (some uid) [a, b, c] 2 cache0)
      = VisState.mk b.nodes b.edges err0 (some uid) [a, b, c] 1 cache0 := rfl
  rw [hgb]
  unfold handleNodeDoubleClick
  dsimp only
  rw [hfind]
  dsimp only
  unfold getSubgraphConfig
  dsimp only
  rw [hstore]
  dsimp only
  unfold processConfigSubgraph
  rw [hbuild]
  dsimp only
  refine ⟨rfl, rfl, ?_⟩
  show some
      ({ nodes := net.nodes, edges := net.edges, config := some cfg,
         triggerNodeId := some nodeId,
         fullPath := some (if moduleName != "" then path ++ "/" ++ moduleName else path) }
        : GraphState) ≠ some c
  intro heq
  injection heq with h2
  apply htrig
  rw [← h2]

/-- C3 witness: the truncate-before-push behavior at the concrete scenario,
through the claim theorem. -/
theorem c3_goback_then_expand_truncates_witness :
    (handleNodeDoubleClick navStore (handleGoBack c3Vis) "Model/m" "n1" "sub.yaml"
        "m").1.historyStack
      = [c3StateA, c3StateB,
         { nodes := [{ id := "n1", ntype := "custom",
                       data := { label := "n1", cls := none, module_type := none,
                                 isInput := false, isOutput := false, outNum := 1,
                                 inputSources := none, config := none } }],
           edges := [], config := some navConfig, triggerNodeId := some "n1",
           fullPath := some (if "m" != "" then "Model/m" ++ "/" ++ "m" else "Model/m") }]
    ∧ (handleNodeDoubleClick navStore (handleGoBack c3Vis) "Model/m" "n1" "sub.yaml"
        "m").1.historyStack.get? 2 ≠ some c3StateC :=
  have h := c3_goback_then_expand_truncates navStore c3Vis "Model/m" "n1" "sub.yaml" "m"
    "upload1" c3StateA c3StateB c3StateC navConfig
    { nodes := [{ id := "n1", ntype := "custom",
                  data := { label := "n1", cls := none, module_type := none,
                            isInput := false, isOutput := false, outNum := 1,
                            inputSources := none, config := none } }],
      edges := [] }
    { id := "n1", ntype := "custom",
      data := { label := "n1", cls := none, module_type := none,
                isInput := false, isOutput := false, outNum := 1,
                inputSources := none, config := none } }
    rfl rfl rfl rfl rfl rfl (by simp [c3StateC])
  ⟨h.1, h.2.2⟩

/-- C2 witness: one expansion at the concrete root state, through the claim
theorem. -/
theorem c2_cache_never_used_witness :
    (handleNodeDoubleClick navStore navS0 "Model" "n1" "other.yaml" "m").2 = 1
    ∧ (handleNodeDoubleClick navStore navS0 "Model" "n1" "other.yaml" "m").1.subgraphCache
        = navS0.subgraphCache :=
  c2_cache_never_used.1 navStore navS0 "Model" "n1" "other.yaml" "m" "upload1"
    { id := "n1", ntype := "custom",
      data := { label := "n1", cls := none, module_type := none,
                isInput := false, isOutput := false, outNum := 1,
                inputSources := none, config := none } } rfl rfl
